import Mathlib

/-
Shallow embedding of the tello-swarm-async repository.

The repository mixes two revisions: `src/tello.py` (task-list
SwarmManager, pad-id-only telemetry decode, proximity guard),
`src/swarm.py` (strategy-driven SwarmManager and ack handler),
`src/strategies.py` (self-contained FollowToEndPad strategy) and the
`src/tasks/` package (FindPadTask, AlignPadTask).  Each definition
below names the source function it embeds.
-/

namespace TelloSwarm

/-- Python `needle in hay` on byte strings: substring containment. -/
def containsSub (needle : List Char) : List Char → Bool
  | [] => needle.isEmpty
  | c :: rest => needle.isPrefixOf (c :: rest) || containsSub needle rest

/-- Python `needle in data` used by `SwarmManager.msg_received_callback`
(src/swarm.py lines 96 and 101). -/
def pyIn (needle hay : String) : Bool := containsSub needle.toList hay.toList

/-- The per-drone mutable record `TelloUnit`.  `src/tello.py` declares
`ip`, `started`, `detected_marker`, `front_tof`; the fields `labelled`,
`finished`, `marker_xy`, `marker_yaw`, `height` and `landing` are set or
read by src/swarm.py, src/strategies.py, src/tasks/find_pad.py and
src/tasks/align_pad.py (the revision of tello.py declaring them is not
in src).  `ackRegistered` models whether a live `on_msg_received`
future with a registered done-callback exists for the unit. -/
structure TelloUnit where
  ip : String
  started : Bool := false
  labelled : Bool := false
  finished : Bool := false
  landing : Bool := false
  detected_marker : Option Int := none
  marker_xy : Option (Int × Int) := none
  marker_yaw : Option Int := none
  height : Int := 0
  front_tof : Int := 0
  ackRegistered : Bool := true
deriving DecidableEq

/-- The strategy's per-unit search bookkeeping: Python dict
`tellos_last_search_tasks` keyed by unit (units are distinct objects,
one per IP, so the IP is a faithful key).  A stored value of Python
`None` and an absent key are indistinguishable to the code (it only
calls `.get(tello) is None`), so both are modelled by `none`. -/
abbrev SearchState : Type := List (String × Option Int)

/-- Python `dict.get(tello)`: `none` for an absent key or a stored None. -/
def lookupSearch (st : SearchState) (ip : String) : Option Int :=
  match List.find? (fun p => p.1 == ip) st with
  | none => none
  | some p => p.2

/-- Python `dict[tello] = v`. -/
def setSearch (st : SearchState) (ip : String) (v : Option Int) : SearchState :=
  (ip, v) :: List.filter (fun p => p.1 != ip) st

/-- The six-step perimeter sweep `movement_commands`
(src/strategies.py lines 97-104, identical in src/tasks/find_pad.py). -/
def movementCommands : List String :=
  ["left 50", "forward 20", "right 50", "right 50", "forward 20", "left 50"]

/-- Configuration of `FollowToEndPad.__init__` (src/strategies.py lines 6-28). -/
structure FollowToEndPad where
  path_pad_no : Int
  end_pad_no : Int
  distance_between_pads : Int
  flight_level_1 : Int
  flight_level_2 : Int
  speed : Int
deriving DecidableEq

/-- Embeds `FollowToEndPad.search_for_pad` (src/strategies.py lines 92-111):
absent/None entry → store -1, return the altitude-seek command;
otherwise increment and return `movement_commands[index % 6]`. -/
def searchForPad (st : SearchState) (tello : TelloUnit) (search_altitude : Int) :
    SearchState × String :=
  match lookupSearch st tello.ip with
  | none =>
      (setSearch st tello.ip (some (-1)),
       "go 0 0 " ++ toString search_altitude ++ " 10")
  | some k =>
      (setSearch st tello.ip (some (k + 1)),
       List.getD movementCommands ((k + 1) % 6).toNat "")

/-- Python `tellos.index(tello)`: identity-based first occurrence; units
are one object per IP, so the first IP match is the same index. -/
def indexOfUnit (tello : TelloUnit) (tellos : List TelloUnit) : Nat :=
  List.findIdx (fun u => u.ip == tello.ip) tellos

/-- Embeds `FollowToEndPad.next_task` (src/strategies.py lines 42-90).
Returns the updated search dict together with the Python return value
`(should_continue, next_task)`. -/
def next_task (self : FollowToEndPad) (st : SearchState) (tello : TelloUnit)
    (tellos : List TelloUnit) : SearchState × Bool × Option String :=
  let index := indexOfUnit tello tellos
  let altitude := if index % 2 == 0 then self.flight_level_1 else self.flight_level_2
  match tello.detected_marker with
  | none =>
      let r := searchForPad st tello altitude
      (r.1, true, some r.2)
  | some m =>
      if m ≠ self.end_pad_no then
        match tello.marker_yaw with
        | none => (st, false, none)
        | some yaw =>
            let st' := setSearch st tello.ip none
            if 10 ≤ yaw.natAbs then
              let yaw_command := if yaw > 0 then "cw" else "ccw"
              (st', true, some (yaw_command ++ " " ++ toString yaw.natAbs))
            else
              (st', true, some ("go " ++ toString self.distance_between_pads ++ " 0 "
                ++ toString altitude ++ " " ++ toString self.speed
                ++ " m" ++ toString self.path_pad_no))
      else
        match tello.marker_xy with
        | none => (st, false, none)
        | some xy =>
            if xy.1.natAbs ≤ 10 && xy.2.natAbs ≤ 10 then
              (st, false, none)
            else
              (st, true, some ("go 0 0 " ++ toString altitude ++ " "
                ++ toString self.speed ++ " m" ++ toString self.end_pad_no))

/-- State of `FindPadTask` (src/tasks/find_pad.py lines 4-20). -/
structure FindPadTask where
  tellos_last_search_tasks : SearchState
deriving DecidableEq

/-- Embeds `FindPadTask.execute` (src/tasks/find_pad.py lines 22-41): first
call after marker loss stores the sentinel -1 and returns the
height-compensated altitude-seek command; later calls advance the
index and return `movement_commands[index % 6]`. -/
def FindPadTask.execute (self : FindPadTask) (tello : TelloUnit)
    (search_altitude : Int) : FindPadTask × Bool × String :=
  match lookupSearch self.tellos_last_search_tasks tello.ip with
  | none =>
      (⟨setSearch self.tellos_last_search_tasks tello.ip (some (-1))⟩,
       true, "go 0 0 " ++ toString (search_altitude - tello.height) ++ " 10")
  | some k =>
      (⟨setSearch self.tellos_last_search_tasks tello.ip (some (k + 1))⟩,
       true, List.getD movementCommands ((k + 1) % 6).toNat "")

/-- Embeds `FindPadTask.reset_tasks` (src/tasks/find_pad.py lines 19-20). -/
def FindPadTask.reset_tasks (self : FindPadTask) (tello : TelloUnit) : FindPadTask :=
  ⟨setSearch self.tellos_last_search_tasks tello.ip none⟩

/-- State after `n` consecutive marker-lost invocations of
`FindPadTask.execute` for one unit. -/
def findPadRun (t0 : FindPadTask) (tello : TelloUnit) (alt : Int) : Nat → FindPadTask
  | 0 => t0
  | n + 1 => (FindPadTask.execute (findPadRun t0 tello alt n) tello alt).1

/-- Command returned by the n-th consecutive invocation (n ≥ 1). -/
def findPadNthCommand (t0 : FindPadTask) (tello : TelloUnit) (alt : Int) (n : Nat) : String :=
  (FindPadTask.execute (findPadRun t0 tello alt (n - 1)) tello alt).2.2

/-- Python `str(x)` for the optional `tello.detected_marker` inside an
f-string: `None` prints as "None". -/
def pyShowOptInt : Option Int → String
  | none => "None"
  | some k => toString k

/-- Configuration of `AlignPadTask.__init__` (src/tasks/align_pad.py lines 4-14). -/
structure AlignPadTask where
  speed : Int
  distance_between_pads : Int
  path_pad_nos : List Int
  end_pad_nos : List Int
deriving DecidableEq

/-- Embeds `AlignPadTask.align_yaw` (src/tasks/align_pad.py lines 16-21).
`none` models the TypeError Python raises when `marker_yaw` is None. -/
def AlignPadTask.align_yaw (tello : TelloUnit) : Option (Bool × String) :=
  match tello.marker_yaw with
  | none => none
  | some yaw =>
      let yaw_command := if yaw > 0 then "cw" else "ccw"
      some (true, yaw_command ++ " " ++ toString yaw.natAbs)

/-- Embeds `AlignPadTask.align_pad` (src/tasks/align_pad.py lines 23-35): yaw
correction first; otherwise a forward hop whose mission-pad token is
built from `tello.detected_marker`.  `none` models the TypeError on a
missing yaw. -/
def AlignPadTask.align_pad (self : AlignPadTask) (tello : TelloUnit)
    (altitude : Int) : Option (Bool × String) :=
  match tello.marker_yaw with
  | none => none
  | some yaw =>
      if 10 ≤ yaw.natAbs then
        AlignPadTask.align_yaw tello
      else
        some (true, "go " ++ toString self.distance_between_pads ++ " 0 "
          ++ toString altitude ++ " " ++ toString self.speed
          ++ " m" ++ pyShowOptInt tello.detected_marker)

/-- Embeds `AlignPadTask.align_end_pad` (src/tasks/align_pad.py lines 37-50).
Returns the possibly-updated unit (it sets `tello.landing`) and the
`(continue, command)` pair; `none` models the TypeError on a missing
`marker_xy`. -/
def AlignPadTask.align_end_pad (self : AlignPadTask) (tello : TelloUnit)
    (altitude : Int) : Option (TelloUnit × Bool × Option String) :=
  match tello.marker_xy with
  | none => none
  | some xy =>
      if xy.1.natAbs ≤ 10 && xy.2.natAbs ≤ 10 then
        some ({ tello with landing := true }, false, none)
      else
        some (tello, true, some ("go 0 0 " ++ toString altitude ++ " "
          ++ toString self.speed ++ " m" ++ pyShowOptInt tello.detected_marker))

/-- One telemetry broadcast record: semicolon-separated `key:value`
fields at fixed positions — mission-pad id, pad-relative x, y, z, the
`mpry:p,r,yaw` triple, …, height (src/tello.py line 95 reads the first
field; the field layout is fixed by the wire protocol). -/
structure Telemetry where
  mid : Int
  x : Int
  y : Int
  z : Int
  mpry : Int × Int × Int
  h : Int
deriving DecidableEq

/-- Modelled from the spec: the telemetry decode of the `TelloUnit`
fields `marker_xy`, `marker_yaw` and `height`.  The revision of
`TelloStatusProtocol.datagram_received` in src/tello.py (lines 91-96)
decodes only the pad id — `detected_marker := int(mid) if int(mid) > 0
else None` — and the revision that also decodes x, y, mpry and height
(whose fields src/strategies.py and src/tasks/find_pad.py read) is not
in src.  Per spec §4.2: pad id ≤ 0 clears `detectedMarker`,
`markerOffset` and `markerYaw` atomically; pad id > 0 sets all three
from the corresponding fields; height is updated on every datagram. -/
def statusUpdate (tello : TelloUnit) (t : Telemetry) : TelloUnit :=
  if 0 < t.mid then
    { tello with detected_marker := some t.mid,
                 marker_xy := some (t.x, t.y),
                 marker_yaw := some t.mpry.2.2,
                 height := t.h }
  else
    { tello with detected_marker := none,
                 marker_xy := none,
                 marker_yaw := none,
                 height := t.h }

/-- Embeds `TelloStatusProtocol.datagram_received` (src/tello.py lines 91-96):
datagrams from unrecognized addresses are ignored; otherwise the unit
registered for the source address is updated. -/
def statusDatagramReceived (tellos : List TelloUnit) (src : String)
    (t : Telemetry) : List TelloUnit :=
  if tellos.any (fun u => u.ip == src) then
    tellos.map (fun u => if u.ip == src then statusUpdate u t else u)
  else
    tellos

/-- Observable state of one unit's proximity-guard loop
(src/tello.py `SwarmManager.tof_received_callback`).  Python callbacks
are `functools.partial` objects compared by identity by
`Future.remove_done_callback`; they are modelled as identity tokens
drawn from the strictly increasing counter `fresh`, so a token created
now is distinct from every token created earlier. -/
structure TofUnitState where
  front_tof : Int := 0
  msgCallbacks : List Nat := []
  tofCallbacks : List Nat := []
  sent : List String := []
  fresh : Nat := 0
deriving DecidableEq

/-- Embeds `SwarmManager.tof_received_callback` (src/tello.py lines 193-222):
store the range; if < 500 send `land` and call
`remove_done_callback(functools.partial(self.msg_received_callback,
tello))` — the argument is a freshly constructed partial object, which
compares (by identity) unequal to the registered one, so the filter
removes nothing; otherwise re-arm the tof future, sleep, and poll
`EXT tof?` again. -/
def tof_received_callback (s : TofUnitState) (range : Int) : TofUnitState :=
  let s1 := { s with front_tof := range }
  if range < 500 then
    let newPartial := s1.fresh
    { s1 with fresh := newPartial + 1,
              sent := s1.sent ++ ["land"],
              msgCallbacks := s1.msgCallbacks.filter (fun c => c ≠ newPartial) }
  else
    let newFuture := s1.fresh
    { s1 with fresh := newFuture + 1,
              tofCallbacks := [newFuture],
              sent := s1.sent ++ ["EXT tof?"] }

/-- Observable state of the strategy-driven `SwarmManager`
(src/swarm.py): the unit list, the strategy's search dict, the ordered
log of sent `(ip, command)` pairs, whether `control_transport.close()`
has been called (closing fulfils `on_con_lost` exactly once; a second
`close()` is a no-op), and whether the handler raised. -/
structure SwarmState where
  strategy : FollowToEndPad
  search : SearchState
  tellos : List TelloUnit
  sent : List (String × String) := []
  transportClosed : Bool := false
  raised : Bool := false
deriving DecidableEq

/-- Body of `SwarmManager.msg_received_callback` (src/swarm.py lines
94-153) once the unit `tello` = `self.tellos[i]` is known.  Payload
containing "error": mark finished, register nothing, send nothing.
Else if it contains "ok": run `strategy.next_task` (its search-dict
mutation happens before the lifecycle branches), then take the first
applicable lifecycle branch, each of which re-creates the
`on_msg_received` future and sends one command; the landing branch
also sets `finished` and closes the transport when every unit is
finished.  Any other payload: nothing runs — no command, no new
future, the unit stalls. -/
def msgStep (s : SwarmState) (i : Nat) (tello : TelloUnit) (data : String) : SwarmState :=
  if pyIn "error" data then
    { s with tellos := s.tellos.set i { tello with finished := true, ackRegistered := false } }
  else if pyIn "ok" data then
    if !tello.started then
      { s with search := (next_task s.strategy s.search tello s.tellos).1,
               tellos := s.tellos.set i { tello with started := true, ackRegistered := true },
               sent := s.sent ++ [(tello.ip, "takeoff")] }
    else if !tello.labelled then
      { s with search := (next_task s.strategy s.search tello s.tellos).1,
               tellos := s.tellos.set i { tello with labelled := true, ackRegistered := true },
               sent := s.sent ++ [(tello.ip, "EXT mled s r " ++ (Char.ofNat (97 + i)).toString)] }
    else if (next_task s.strategy s.search tello s.tellos).2.1 && !tello.finished then
      match (next_task s.strategy s.search tello s.tellos).2.2 with
      | none => { s with search := (next_task s.strategy s.search tello s.tellos).1,
                         raised := true }
      | some cmd =>
          { s with search := (next_task s.strategy s.search tello s.tellos).1,
                   tellos := s.tellos.set i { tello with ackRegistered := true },
                   sent := s.sent ++ [(tello.ip, cmd)] }
    else
      { s with search := (next_task s.strategy s.search tello s.tellos).1,
               tellos := s.tellos.set i { tello with finished := true, ackRegistered := true },
               sent := s.sent ++ [(tello.ip, "land")],
               transportClosed := s.transportClosed
                 || (s.tellos.set i { tello with finished := true, ackRegistered := true }).all
                      (fun t => t.finished) }
  else
    { s with tellos := s.tellos.set i { tello with ackRegistered := false } }

/-- Embeds `SwarmManager.msg_received_callback` (src/swarm.py lines 77-153)
for the handler bound to unit index `i`. -/
def msg_received_callback (s : SwarmState) (i : Nat) (data : String) : SwarmState :=
  match s.tellos[i]? with
  | none => s
  | some tello => msgStep s i tello data

/- Concrete fixtures used by witnesses and counterexamples. -/

def exCfg : FollowToEndPad := ⟨1, 5, 100, 50, 60, 40⟩

def exUnitNone : TelloUnit := { ip := "10.0.0.1" }

def exUnit3 : TelloUnit :=
  { ip := "10.0.0.3", detected_marker := some 3, marker_yaw := some 0 }

def exUnit3y : TelloUnit :=
  { ip := "10.0.0.3", detected_marker := some 3, marker_yaw := some (-25) }

def exUnitEnd : TelloUnit :=
  { ip := "10.0.0.5", detected_marker := some 5, marker_xy := some (40, 0) }

def exAlign : AlignPadTask := ⟨40, 100, [1, 3], [5]⟩

def exTelem : Telemetry := ⟨2, 30, -40, 0, (1, 2, 7), 9⟩

def exNavUnit : TelloUnit :=
  { ip := "10.0.0.7", started := true, labelled := true,
    detected_marker := some 5, marker_xy := some (40, 0) }

def exSwarmNav : SwarmState :=
  { strategy := exCfg, search := [], tellos := [exNavUnit] }

def exFinUnit : TelloUnit :=
  { ip := "10.0.0.9", started := true, labelled := true, finished := true }

def exSwarmFin : SwarmState :=
  { strategy := exCfg, search := [], tellos := [exFinUnit] }

def exTof : TofUnitState :=
  { front_tof := 0, msgCallbacks := [0], tofCallbacks := [], sent := [], fresh := 1 }

/- Helper lemmas. -/

theorem lookupSearch_setSearch (st : SearchState) (ip : String) (v : Option Int) :
    lookupSearch (setSearch st ip v) ip = v := by
  simp [lookupSearch, setSearch, List.find?]

theorem findPadRun_lookup (t0 : FindPadTask) (tello : TelloUnit) (alt : Int)
    (h0 : lookupSearch t0.tellos_last_search_tasks tello.ip = none) (n : Nat) :
    lookupSearch (findPadRun t0 tello alt (n + 1)).tellos_last_search_tasks tello.ip
      = some ((n : Int) - 1) := by
  induction n with
  | zero =>
      simp [findPadRun, FindPadTask.execute, h0, lookupSearch_setSearch]
  | succ n ih =>
      have hrun : findPadRun t0 tello alt (n + 1 + 1)
          = (FindPadTask.execute (findPadRun t0 tello alt (n + 1)) tello alt).1 := rfl
      rw [hrun]
      unfold FindPadTask.execute
      rw [ih]
      simp only [lookupSearch_setSearch]
      congr 1
      push_cast
      ring

theorem next_task_some_of_continue (cfg : FollowToEndPad) (st : SearchState)
    (tello : TelloUnit) (tellos : List TelloUnit)
    (h : (next_task cfg st tello tellos).2.1 = true) :
    ∃ c, (next_task cfg st tello tellos).2.2 = some c := by
  cases hm : tello.detected_marker with
  | none => simp [next_task, hm]
  | some m =>
      cases hy : tello.marker_yaw <;> cases hxy : tello.marker_xy <;>
        simp only [next_task, hm, hy, hxy] at h ⊢ <;>
        split_ifs at h ⊢ <;> simp_all

/-- C4: Search sub-task — starting with the per-unit search index
absent/sentinel, the 1st invocation of `FindPadTask.execute` returns
the altitude-seek command and stores the sentinel -1, and for n ≥ 2
the n-th consecutive invocation returns pattern element (n-2) mod 6 of
[left 50, forward 20, right 50, right 50, forward 20, left 50]. -/
theorem spec_c4 (t0 : FindPadTask) (tello : TelloUnit) (alt : Int) (n : Nat)
    (h0 : lookupSearch t0.tellos_last_search_tasks tello.ip = none)
    (hn : 2 ≤ n) :
    findPadNthCommand t0 tello alt 1
      = "go 0 0 " ++ toString (alt - tello.height) ++ " 10"
    ∧ lookupSearch (findPadRun t0 tello alt 1).tellos_last_search_tasks tello.ip
      = some (-1)
    ∧ findPadNthCommand t0 tello alt n
      = List.getD movementCommands ((n - 2) % 6) "" := by
  refine ⟨?_, ?_, ?_⟩
  · simp [findPadNthCommand, findPadRun, FindPadTask.execute, h0]
  · have h := findPadRun_lookup t0 tello alt h0 0
    simpa using h
  · obtain ⟨m, rfl⟩ : ∃ m, n = m + 2 := ⟨n - 2, by omega⟩
    have hrun := findPadRun_lookup t0 tello alt h0 m
    have hcmd : findPadNthCommand t0 tello alt (m + 2)
        = (FindPadTask.execute (findPadRun t0 tello alt (m + 1)) tello alt).2.2 := rfl
    rw [hcmd]
    unfold FindPadTask.execute
    rw [hrun]
    have hmod : (((m : Int) - 1 + 1) % 6).toNat = (m + 2 - 2) % 6 := by omega
    simp only [hmod]

/-- C4 witness: the 1st, 3rd (and the sentinel after the 1st) calls at
a concrete unit and altitude. -/
theorem spec_c4_witness :
    findPadNthCommand ⟨[]⟩ exUnitNone 70 1
      = "go 0 0 " ++ toString ((70 : Int) - exUnitNone.height) ++ " 10"
    ∧ lookupSearch (findPadRun ⟨[]⟩ exUnitNone 70 1).tellos_last_search_tasks exUnitNone.ip
      = some (-1)
    ∧ findPadNthCommand ⟨[]⟩ exUnitNone 70 3
      = List.getD movementCommands ((3 - 2) % 6) "" :=
  spec_c4 ⟨[]⟩ exUnitNone 70 3 rfl (by decide)

/-- C5: End-pad centering — when the detected marker is the configured
end pad and the offset (x, y) is present, `FollowToEndPad.next_task`
returns continue = false iff |x| ≤ 10 and |y| ≤ 10; otherwise it
returns continue = true with the zero-translation centering command
referenced to the end pad at the unit's altitude and configured speed. -/
theorem spec_c5 (cfg : FollowToEndPad) (st : SearchState) (tello : TelloUnit)
    (tellos : List TelloUnit) (x y : Int)
    (hm : tello.detected_marker = some cfg.end_pad_no)
    (hxy : tello.marker_xy = some (x, y)) :
    ((next_task cfg st tello tellos).2.1 = false ↔ |x| ≤ 10 ∧ |y| ≤ 10)
    ∧ (¬(|x| ≤ 10 ∧ |y| ≤ 10) →
        (next_task cfg st tello tellos).2
          = (true, some ("go 0 0 "
              ++ toString (if indexOfUnit tello tellos % 2 == 0
                  then cfg.flight_level_1 else cfg.flight_level_2)
              ++ " " ++ toString cfg.speed ++ " m" ++ toString cfg.end_pad_no)))
    ∧ ((|x| ≤ 10 ∧ |y| ≤ 10) →
        (next_task cfg st tello tellos).2 = (false, none)) := by
  have habs : (x.natAbs ≤ 10 ∧ y.natAbs ≤ 10) ↔ (|x| ≤ 10 ∧ |y| ≤ 10) := by
    rw [Int.abs_eq_natAbs, Int.abs_eq_natAbs]
    omega
  by_cases hin : |x| ≤ 10 ∧ |y| ≤ 10
  · have hb : (x.natAbs ≤ 10 && y.natAbs ≤ 10) = true := by
      rw [Bool.and_eq_true, decide_eq_true_iff, decide_eq_true_iff]
      exact habs.mpr hin
    simp [next_task, hm, hxy, hb, hin]
  · have hb : (x.natAbs ≤ 10 && y.natAbs ≤ 10) = false := by
      rw [Bool.and_eq_false_iff]
      rcases not_and_or.mp (fun hc => hin (habs.mp hc)) with hx | hy
      · exact Or.inl (by simpa using hx)
      · exact Or.inr (by simpa using hy)
    simp [next_task, hm, hxy, hb, hin]

/-- C5 witness: a concrete unit on end pad 5 with offset (40, 0). -/
theorem spec_c5_witness :
    ((next_task exCfg [] exUnitEnd [exUnitEnd]).2.1 = false
        ↔ |(40 : Int)| ≤ 10 ∧ |(0 : Int)| ≤ 10)
    ∧ (¬(|(40 : Int)| ≤ 10 ∧ |(0 : Int)| ≤ 10) →
        (next_task exCfg [] exUnitEnd [exUnitEnd]).2
          = (true, some ("go 0 0 "
              ++ toString (if indexOfUnit exUnitEnd [exUnitEnd] % 2 == 0
                  then exCfg.flight_level_1 else exCfg.flight_level_2)
              ++ " " ++ toString exCfg.speed ++ " m" ++ toString exCfg.end_pad_no)))
    ∧ ((|(40 : Int)| ≤ 10 ∧ |(0 : Int)| ≤ 10) →
        (next_task exCfg [] exUnitEnd [exUnitEnd]).2 = (false, none)) :=
  spec_c5 exCfg [] exUnitEnd [exUnitEnd] 40 0 rfl rfl

/-- C6: Yaw alignment — with a detected non-end-pad marker, a present
yaw, and |markerYaw| ≥ 10, `FollowToEndPad.next_task` returns
continue = true with a pure rotation command of magnitude |markerYaw|
degrees, `cw` if markerYaw > 0 and `ccw` otherwise, in preference to
(never combined with) any forward-hop command. -/
theorem spec_c6 (cfg : FollowToEndPad) (st : SearchState) (tello : TelloUnit)
    (tellos : List TelloUnit) (m yaw : Int)
    (hm : tello.detected_marker = some m)
    (hne : m ≠ cfg.end_pad_no)
    (hyaw : tello.marker_yaw = some yaw)
    (hmag : 10 ≤ |yaw|) :
    (next_task cfg st tello tellos).2
      = (true, some ((if yaw > 0 then "cw" else "ccw") ++ " " ++ toString yaw.natAbs)) := by
  have hnat : 10 ≤ yaw.natAbs := by
    rw [Int.abs_eq_natAbs] at hmag
    omega
  simp [next_task, hm, hyaw, hne, hnat]

/-- C6 witness: a concrete unit on path pad 3 with yaw -25. -/
theorem spec_c6_witness :
    (next_task exCfg [] exUnit3y [exUnit3y]).2
      = (true, some ((if (-25 : Int) > 0 then "cw" else "ccw")
          ++ " " ++ toString (-25 : Int).natAbs)) :=
  spec_c6 exCfg [] exUnit3y [exUnit3y] 3 (-25) rfl (by decide) rfl (by decide)

/-- C7 counterexample: a unit detecting path pad 3 (not the end pad 5,
yaw 0) is issued a forward hop whose mission-pad token is `m1` — the
statically configured path-pad number — while the detected marker is
3, so the token is not built from `detectedMarker`. -/
theorem spec_c7_cex :
    (next_task exCfg [] exUnit3 [exUnit3]).2.2 = some "go 100 0 50 40 m1"
    ∧ exUnit3.detected_marker = some 3
    ∧ exCfg.path_pad_no = 1
    ∧ (some "go 100 0 50 40 m1" ≠ some ("go 100 0 50 40 m" ++ toString (3 : Int))) := by
  refine ⟨by decide, rfl, rfl, by decide⟩

/-- C7 amended: `FollowToEndPad.next_task` (src/strategies.py lines
72-76, likewise src/strategies/follow_to_end.py) builds the
forward-hop mission-pad token from the statically configured path-pad
number; only `AlignPadTask.align_pad` (src/tasks/align_pad.py lines
28-35, not called by any strategy in src) builds it from the currently
detected marker id. -/
theorem spec_c7_amended (cfg : FollowToEndPad) (st : SearchState)
    (tello : TelloUnit) (tellos : List TelloUnit) (m yaw : Int)
    (apt : AlignPadTask) (alt : Int)
    (hm : tello.detected_marker = some m)
    (hne : m ≠ cfg.end_pad_no)
    (hyaw : tello.marker_yaw = some yaw)
    (hmag : |yaw| < 10) :
    (next_task cfg st tello tellos).2
      = (true, some ("go " ++ toString cfg.distance_between_pads ++ " 0 "
          ++ toString (if indexOfUnit tello tellos % 2 == 0
              then cfg.flight_level_1 else cfg.flight_level_2)
          ++ " " ++ toString cfg.speed ++ " m" ++ toString cfg.path_pad_no))
    ∧ AlignPadTask.align_pad apt tello alt
      = some (true, "go " ++ toString apt.distance_between_pads ++ " 0 "
          ++ toString alt ++ " " ++ toString apt.speed ++ " m" ++ toString m) := by
  have hnat : ¬ 10 ≤ yaw.natAbs := by
    rw [Int.abs_eq_natAbs] at hmag
    omega
  constructor
  · simp [next_task, hm, hyaw, hne, hnat]
  · simp [AlignPadTask.align_pad, hm, hyaw, hnat, pyShowOptInt]

/-- C7 amended witness: concrete unit on path pad 3 with yaw 0. -/
theorem spec_c7_amended_witness :
    (next_task exCfg [] exUnit3 [exUnit3]).2
      = (true, some ("go " ++ toString exCfg.distance_between_pads ++ " 0 "
          ++ toString (if indexOfUnit exUnit3 [exUnit3] % 2 == 0
              then exCfg.flight_level_1 else exCfg.flight_level_2)
          ++ " " ++ toString exCfg.speed ++ " m" ++ toString exCfg.path_pad_no))
    ∧ AlignPadTask.align_pad exAlign exUnit3 50
      = some (true, "go " ++ toString exAlign.distance_between_pads ++ " 0 "
          ++ toString (50 : Int) ++ " " ++ toString exAlign.speed
          ++ " m" ++ toString (3 : Int)) :=
  spec_c7_amended exCfg [] exUnit3 [exUnit3] 3 0 exAlign 50 rfl (by decide) rfl (by decide)

/-- C8 counterexample: two consecutive `next_task` invocations with the
identical (unit, allUnits) snapshot — a unit with no detected marker —
return different commands, because the call mutates the per-unit
search-cycle index ("go 0 0 50 10" then "left 50"). -/
theorem spec_c8_cex :
    (next_task exCfg [] exUnitNone [exUnitNone]).2
      ≠ (next_task exCfg (next_task exCfg [] exUnitNone [exUnitNone]).1
          exUnitNone [exUnitNone]).2 := by
  decide

/-- C8 amended: `FollowToEndPad.next_task` is deterministic in the
(unit, allUnits) snapshot together with its mutable per-unit
search-cycle state; whenever a marker is detected the returned
(continue, command) pair is independent of that search state, but when
detectedMarker = none the result also depends on the search index,
which each call advances. -/
theorem spec_c8_amended (cfg : FollowToEndPad) (st st' : SearchState)
    (tello : TelloUnit) (tellos : List TelloUnit)
    (h : tello.detected_marker ≠ none) :
    (next_task cfg st tello tellos).2 = (next_task cfg st' tello tellos).2 := by
  cases hm : tello.detected_marker with
  | none => exact absurd hm h
  | some m =>
      cases hy : tello.marker_yaw <;> cases hxy : tello.marker_xy <;>
        simp only [next_task, hm, hy, hxy] <;> split_ifs <;> rfl

/-- C8 amended witness: two different search states, same snapshot with
a detected marker, same result. -/
theorem spec_c8_amended_witness :
    (next_task exCfg [] exUnit3 [exUnit3]).2
      = (next_task exCfg [(exUnit3.ip, some 4)] exUnit3 [exUnit3]).2 :=
  spec_c8_amended exCfg [] [(exUnit3.ip, some 4)] exUnit3 [exUnit3] (by decide)

/-- C1: Telemetry decode — a datagram updates exactly the unit
registered for a recognized source address; pad id ≤ 0 sets
`detected_marker`, `marker_xy` and `marker_yaw` all to none in the
same update, pad id > 0 sets `detected_marker` to the id, `marker_xy`
to (x, y) and `marker_yaw` to the yaw component of the mpry triple;
`height` is updated on every datagram regardless of pad visibility. -/
theorem spec_c1 (tellos : List TelloUnit) (src : String) (t : Telemetry)
    (i : Nat) (u : TelloUnit) (hi : tellos[i]? = some u) :
    (statusDatagramReceived tellos src t)[i]?
      = some (if u.ip == src then statusUpdate u t else u)
    ∧ (t.mid ≤ 0 →
        (statusUpdate u t).detected_marker = none
        ∧ (statusUpdate u t).marker_xy = none
        ∧ (statusUpdate u t).marker_yaw = none)
    ∧ (0 < t.mid →
        (statusUpdate u t).detected_marker = some t.mid
        ∧ (statusUpdate u t).marker_xy = some (t.x, t.y)
        ∧ (statusUpdate u t).marker_yaw = some t.mpry.2.2)
    ∧ (statusUpdate u t).height = t.h := by
  refine ⟨?_, ?_, ?_, ?_⟩
  · unfold statusDatagramReceived
    by_cases ha : tellos.any (fun u => u.ip == src) = true
    · rw [if_pos ha, List.getElem?_map, hi]
      rfl
    · rw [if_neg ha, hi]
      have hmem : u ∈ tellos := List.getElem?_mem hi
      have hfalse : (u.ip == src) = false := by
        cases h : (u.ip == src) with
        | false => rfl
        | true => exact absurd (List.any_eq_true.mpr ⟨u, hmem, h⟩) ha
      rw [hfalse]
      simp
  · intro h
    have : ¬ 0 < t.mid := by omega
    simp [statusUpdate, this]
  · intro h
    simp [statusUpdate, h]
  · unfold statusUpdate
    split_ifs <;> rfl

/-- C1 witness: a concrete two-unit list, a datagram from the first
unit's address carrying pad id 2, offset (30, -40), mpry (1,2,7),
height 9. -/
theorem spec_c1_witness :
    (statusDatagramReceived [exUnitNone, exUnit3] "10.0.0.1" exTelem)[0]?
      = some (if exUnitNone.ip == "10.0.0.1"
          then statusUpdate exUnitNone exTelem else exUnitNone)
    ∧ (exTelem.mid ≤ 0 →
        (statusUpdate exUnitNone exTelem).detected_marker = none
        ∧ (statusUpdate exUnitNone exTelem).marker_xy = none
        ∧ (statusUpdate exUnitNone exTelem).marker_yaw = none)
    ∧ (0 < exTelem.mid →
        (statusUpdate exUnitNone exTelem).detected_marker = some exTelem.mid
        ∧ (statusUpdate exUnitNone exTelem).marker_xy = some (exTelem.x, exTelem.y)
        ∧ (statusUpdate exUnitNone exTelem).marker_yaw = some exTelem.mpry.2.2)
    ∧ (statusUpdate exUnitNone exTelem).height = exTelem.h :=
  spec_c1 [exUnitNone, exUnit3] "10.0.0.1" exTelem 0 exUnitNone rfl

/-- C9: Proximity guard at the failing input — a front-range response
of 300 mm (< 500) with the unit's normal ack callback attached
(token 0): the guard sends `land` as the claim and spec state, but
`remove_done_callback` is handed a freshly constructed
`functools.partial` object, which compares (by identity) unequal to
the attached one, so the normal callback stays attached and the unit
is not detached from the ack-driven loop; a response of 900 mm (≥ 500)
re-arms the poll with another `EXT tof?`. -/
theorem spec_c9_bug :
    (tof_received_callback exTof 300).sent = ["land"]
    ∧ (tof_received_callback exTof 300).msgCallbacks = [0]
    ∧ (tof_received_callback exTof 300).front_tof = 300
    ∧ (tof_received_callback exTof 900).sent = ["EXT tof?"] := by
  decide

/-- C2 counterexample: a payload containing neither "ok" nor "error"
(the literal acknowledgment "100") delivered to a started, labelled
unit is not treated as success-with-data: the handler's if/elif chain
matches nothing, so no command is sent, no lifecycle flag changes, and
no fresh acknowledgment future is registered — the unit stalls instead
of advancing. -/
theorem spec_c2_cex :
    msg_received_callback exSwarmNav 0 "100"
      = { exSwarmNav with
            tellos := [{ exNavUnit with ackRegistered := false }] }
    ∧ (msg_received_callback exSwarmNav 0 "100").sent = [] := by
  constructor
  · decide
  · decide

/-- C2 amended: ack classification in
`SwarmManager.msg_received_callback` — a payload containing "error"
marks the unit finished, sends nothing further and registers no new
callback; a payload containing "ok" (but not "error") advances the
lifecycle: exactly one command is sent to the unit and a fresh
acknowledgment callback is registered; any other payload is ignored:
no command, no state change beyond losing its registered callback, so
the unit stalls. -/
theorem spec_c2_amended (s : SwarmState) (i : Nat) (tello : TelloUnit) (data : String)
    (hi : s.tellos[i]? = some tello) :
    (pyIn "error" data = true →
       msg_received_callback s i data
         = { s with tellos :=
               s.tellos.set i ({ tello with finished := true, ackRegistered := false }) })
    ∧ (pyIn "error" data = false → pyIn "ok" data = true →
       ∃ u' cmd, (msg_received_callback s i data).tellos = s.tellos.set i u'
         ∧ u'.ackRegistered = true
         ∧ (msg_received_callback s i data).sent = s.sent ++ [(tello.ip, cmd)])
    ∧ (pyIn "error" data = false → pyIn "ok" data = false →
       msg_received_callback s i data
         = { s with tellos := s.tellos.set i ({ tello with ackRegistered := false }) }) := by
  have hstep : msg_received_callback s i data = msgStep s i tello data := by
    unfold msg_received_callback
    rw [hi]
  rw [hstep]
  refine ⟨?_, ?_, ?_⟩
  · intro he
    simp [msgStep, he]
  · intro he ho
    simp only [msgStep, he, ho]
    simp only [Bool.false_eq_true, if_false, if_true]
    cases hst : tello.started with
    | false =>
        refine ⟨{ tello with started := true, ackRegistered := true }, "takeoff", ?_⟩
        simp
    | true =>
        cases hlb : tello.labelled with
        | false =>
            refine ⟨{ tello with labelled := true, ackRegistered := true },
              "EXT mled s r " ++ (Char.ofNat (97 + i)).toString, ?_⟩
            simp [hst]
        | true =>
            by_cases hcont : ((next_task s.strategy s.search tello s.tellos).2.1
                && !tello.finished) = true
            · obtain ⟨c, hc⟩ := next_task_some_of_continue s.strategy s.search tello s.tellos
                (by rw [Bool.and_eq_true] at hcont; exact hcont.1)
              simp only [hcont, hc]
              exact ⟨{ tello with ackRegistered := true }, c, by simp [hst, hlb]⟩
            · simp only [Bool.not_eq_true] at hcont
              simp only [hcont]
              exact ⟨{ tello with finished := true, ackRegistered := true }, "land",
                by simp [hst, hlb]⟩
  · intro he ho
    simp [msgStep, he, ho]

/-- C2 amended witness: a started, labelled unit receiving "error",
"ok" and "100". -/
theorem spec_c2_amended_witness :
    (pyIn "error" "ok" = true →
       msg_received_callback exSwarmNav 0 "ok"
         = { exSwarmNav with tellos :=
               exSwarmNav.tellos.set 0 ({ exNavUnit with finished := true, ackRegistered := false }) })
    ∧ (pyIn "error" "ok" = false → pyIn "ok" "ok" = true →
       ∃ u' cmd, (msg_received_callback exSwarmNav 0 "ok").tellos
           = exSwarmNav.tellos.set 0 u'
         ∧ u'.ackRegistered = true
         ∧ (msg_received_callback exSwarmNav 0 "ok").sent
           = exSwarmNav.sent ++ [(exNavUnit.ip, cmd)])
    ∧ (pyIn "error" "ok" = false → pyIn "ok" "ok" = false →
       msg_received_callback exSwarmNav 0 "ok"
         = { exSwarmNav with tellos :=
               exSwarmNav.tellos.set 0 ({ exNavUnit with ackRegistered := false }) }) :=
  spec_c2_amended exSwarmNav 0 exNavUnit "ok" rfl

/-- C3 counterexample: a single started, labelled, unfinished unit
receives an "error"-classified acknowledgment — afterwards every
unit's finished flag is true, yet the transport is never closed, so
the completion signal does not fire even though all units are
finished. -/
theorem spec_c3_cex :
    ((msg_received_callback exSwarmNav 0 "error").tellos.all (fun u => u.finished)) = true
    ∧ (msg_received_callback exSwarmNav 0 "error").transportClosed = false := by
  decide

/-- C3 amended: the completion signal (transport close) is triggered
only from the normal landing path — whenever
`SwarmManager.msg_received_callback` closes the transport, every
unit's finished flag is true; but the error-classified path marks a
unit finished without running the all-finished check, so the signal
never fires there, even when that unit was the last unfinished one. -/
theorem spec_c3_amended (s : SwarmState) (i : Nat) (data : String)
    (hc : s.transportClosed = false) :
    ((msg_received_callback s i data).transportClosed = true →
       ∀ u ∈ (msg_received_callback s i data).tellos, u.finished = true)
    ∧ (pyIn "error" data = true →
       (msg_received_callback s i data).transportClosed = false) := by
  cases hi : s.tellos[i]? with
  | none =>
      have heq : msg_received_callback s i data = s := by
        unfold msg_received_callback
        rw [hi]
      rw [heq]
      exact ⟨fun h => absurd h (by rw [hc]; simp), fun _ => hc⟩
  | some tello =>
      have hstep : msg_received_callback s i data = msgStep s i tello data := by
        unfold msg_received_callback
        rw [hi]
      rw [hstep]
      constructor
      · intro hclosed
        by_cases he : pyIn "error" data = true
        · simp [msgStep, he, hc] at hclosed
        · by_cases ho : pyIn "ok" data = true
          · cases hst : tello.started with
            | false => simp [msgStep, he, ho, hst, hc] at hclosed
            | true =>
                cases hlb : tello.labelled with
                | false => simp [msgStep, he, ho, hst, hlb, hc] at hclosed
                | true =>
                    by_cases hcont : ((next_task s.strategy s.search tello s.tellos).2.1
                        && !tello.finished) = true
                    · cases hnt : (next_task s.strategy s.search tello s.tellos).2.2 with
                      | none =>
                          simp [msgStep, he, ho, hst, hlb, hcont, hnt, hc] at hclosed
                      | some cmd =>
                          simp [msgStep, he, ho, hst, hlb, hcont, hnt, hc] at hclosed
                    · simp only [msgStep, he, ho, hst, hlb, hcont, hc] at hclosed ⊢
                      simp only [Bool.false_eq_true, if_false, if_true, Bool.not_true,
                        Bool.false_or] at hclosed ⊢
                      intro u hu
                      have hall := List.all_eq_true.mp hclosed u hu
                      simpa using hall
          · simp [msgStep, he, ho, hc] at hclosed
      · intro he
        simp [msgStep, he, hc]

/-- C3 amended witness: the error path on a concrete swarm leaves the
transport open; no close happens outside the all-finished land path. -/
theorem spec_c3_amended_witness :
    ((msg_received_callback exSwarmNav 0 "error").transportClosed = true →
       ∀ u ∈ (msg_received_callback exSwarmNav 0 "error").tellos, u.finished = true)
    ∧ (pyIn "error" "error" = true →
       (msg_received_callback exSwarmNav 0 "error").transportClosed = false) :=
  spec_c3_amended exSwarmNav 0 "error" rfl

/-- C10: a finished unit is not detached from the acknowledgment loop —
an "ok"-classified acknowledgment from a started, labelled unit whose
finished flag is already true makes the handler send another `land` to
that unit and register a fresh acknowledgment callback, so each
landing acknowledgment triggers a further land command. -/
theorem spec_c10 (s : SwarmState) (i : Nat) (tello : TelloUnit) (data : String)
    (hi : s.tellos[i]? = some tello)
    (hst : tello.started = true) (hlb : tello.labelled = true)
    (hfin : tello.finished = true)
    (he : pyIn "error" data = false) (ho : pyIn "ok" data = true) :
    (msg_received_callback s i data).sent = s.sent ++ [(tello.ip, "land")]
    ∧ (msg_received_callback s i data).tellos
        = s.tellos.set i { tello with finished := true, ackRegistered := true } := by
  have hstep : msg_received_callback s i data = msgStep s i tello data := by
    unfold msg_received_callback
    rw [hi]
  rw [hstep]
  have hcont : ((next_task s.strategy s.search tello s.tellos).2.1
      && !tello.finished) = false := by
    rw [hfin]
    simp
  simp [msgStep, he, ho, hst, hlb, hcont]

/-- C10 witness: a concrete finished, started, labelled unit receiving
"ok" is sent another land command. -/
theorem spec_c10_witness :
    (msg_received_callback exSwarmFin 0 "ok").sent
      = exSwarmFin.sent ++ [(exFinUnit.ip, "land")]
    ∧ (msg_received_callback exSwarmFin 0 "ok").tellos
      = exSwarmFin.tellos.set 0 { exFinUnit with finished := true, ackRegistered := true } :=
  spec_c10 exSwarmFin 0 exFinUnit "ok" rfl rfl rfl rfl (by decide) (by decide)

end TelloSwarm
